import Mathlib

set_option linter.unusedVariables false

/-
Verification of the AppFaders virtual audio driver.

Part 1 embeds Sources/AppFadersDriverBridge/PlugInInterface.c: a COM-style
vtable bridge whose handlers are translated one-for-one.  Out-parameters are
modelled as explicit flags for NULL-ness plus an explicit "what was stored"
value in the result; machine counters are Nat reduced mod 2^32 where the C
arithmetic can wrap.

Part 2 models the virtual-device core (Client Registry, Gain Table,
Property Store, IO Cycle Engine) that the bridge's TODO(task6..task9)
comments delegate to Swift code not present in the repository snapshot;
those definitions are built from the design spec's contracts and are marked
`Modelled from the spec:` in their doc comments.
-/

-- MARK: CoreAudio status constants (FourCC values from the CoreAudio headers)

def kAudioHardwareNoError : Nat := 0

def kAudioHardwareBadObjectError : Nat := 0x216F626A

def kAudioHardwareIllegalOperationError : Nat := 0x6E6F7065

def kAudioHardwareUnknownPropertyError : Nat := 0x77686F3F

def kAudioHardwareUnsupportedOperationError : Nat := 0x756E6F70

-- MARK: COM HRESULT constants

def S_OK : Nat := 0

def E_POINTER : Nat := 0x80004003

def E_NOINTERFACE : Nat := 0x80004002

-- MARK: UUID constants (byte lists copied from PlugInInterface.c)

/-- The AudioServerPlugInDriverInterface UUID bytes from PlugIn_QueryInterface. -/
def driverInterfaceUUID : List Nat :=
  [0xEE, 0xA5, 0x77, 0x3D, 0xCC, 0x43, 0x49, 0xF1,
   0x8E, 0x00, 0x8F, 0x96, 0xE7, 0xD2, 0x3B, 0x17]

/-- The IUnknown UUID bytes from PlugIn_QueryInterface. -/
def iunknownUUID : List Nat :=
  [0x00, 0x00, 0x00, 0x00, 0x00, 0x00, 0x00, 0x00,
   0xC0, 0x00, 0x00, 0x00, 0x00, 0x00, 0x00, 0x46]

/-- The kAudioServerPlugInTypeUUID bytes from AppFadersDriver_Create. -/
def kAudioServerPlugInTypeUUID : List Nat :=
  [0x44, 0x3A, 0xBA, 0xB8, 0xE7, 0xB3, 0x49, 0x1A,
   0xB9, 0x85, 0xBE, 0xB9, 0x18, 0x70, 0x30, 0xDB]

-- MARK: Pointer values the bridge can hand out

/-- The one interface pointer the driver owns (&gDriverInterfacePtr in C). -/
inductive IfacePtr where
  | driverInterfacePtr
  deriving DecidableEq, Repr

/-- What PlugIn_QueryInterface stored through its outInterface parameter. -/
inductive StoredIface where
  | notStored
  | storedNull
  | storedDriver
  deriving DecidableEq, Repr

-- MARK: IUnknown methods (PlugInInterface.c lines 43-96)

/-- PlugIn_QueryInterface: takes the current value of sDriverRefCount, whether
the outInterface argument is NULL, and the requested UUID bytes; returns the
HRESULT, the new sDriverRefCount, and what was stored into outInterface. -/
def PlugIn_QueryInterface (refCount : Nat) (outInterfaceNull : Bool)
    (uuid : List Nat) : Nat × Nat × StoredIface :=
  if outInterfaceNull then
    (E_POINTER, refCount, .notStored)
  else if uuid = driverInterfaceUUID ∨ uuid = iunknownUUID then
    (S_OK, (refCount + 1) % 2 ^ 32, .storedDriver)
  else
    (E_NOINTERFACE, refCount, .storedNull)

/-- PlugIn_Release: takes the current sDriverRefCount, returns the ULONG
result and the new sDriverRefCount.  The C code only performs the
atomic_fetch_sub when the loaded count was positive. -/
def PlugIn_Release (refCount : Nat) : Nat × Nat :=
  if 0 < refCount then (refCount - 1, refCount - 1) else (0, refCount)

-- MARK: Basic operations (PlugInInterface.c lines 100-185)

/-- PlugIn_CreateDevice: ignores its description and client-info arguments,
never writes outDeviceObjectID (hence the `none`), and always returns
kAudioHardwareUnsupportedOperationError. -/
def PlugIn_CreateDevice (inDescription : Nat) (inClientInfoArg : Nat) :
    Nat × Option Nat :=
  (kAudioHardwareUnsupportedOperationError, none)

/-- PlugIn_DestroyDevice: logs and always returns
kAudioHardwareUnsupportedOperationError. -/
def PlugIn_DestroyDevice (inDeviceObjectID : Nat) : Nat :=
  kAudioHardwareUnsupportedOperationError

/-- PlugIn_AddDeviceClient: the bridge stub only logs (TODO(task6) delegates
client tracking to the core) and returns kAudioHardwareNoError. -/
def PlugIn_AddDeviceClient (inDeviceObjectID clientID processID : Nat) : Nat :=
  kAudioHardwareNoError

-- MARK: Property operations (PlugInInterface.c lines 189-268)

/-- A (selector, scope, element) property address. -/
structure PropertyAddress where
  selector : Nat
  scope : Nat
  element : Nat
  deriving DecidableEq, Repr

/-- PlugIn_GetPropertyDataSize: if outDataSize is NULL returns
kAudioHardwareIllegalOperationError having written nothing, otherwise writes
0 to *outDataSize and returns kAudioHardwareUnknownPropertyError.  Result is
(status, value stored through outDataSize). -/
def PlugIn_GetPropertyDataSize (inObjectID : Nat) (inAddress : PropertyAddress)
    (inQualifierData : List Nat) (outDataSizeNull : Bool) : Nat × Option Nat :=
  if outDataSizeNull then
    (kAudioHardwareIllegalOperationError, none)
  else
    (kAudioHardwareUnknownPropertyError, some 0)

/-- PlugIn_GetPropertyData: if outDataSize or outData is NULL returns
kAudioHardwareIllegalOperationError having written nothing, otherwise writes
0 to *outDataSize (no bytes are produced into outData) and returns
kAudioHardwareUnknownPropertyError. -/
def PlugIn_GetPropertyData (inObjectID : Nat) (inAddress : PropertyAddress)
    (inQualifierData : List Nat) (inDataSize : Nat)
    (outDataSizeNull outDataNull : Bool) : Nat × Option Nat :=
  if outDataSizeNull || outDataNull then
    (kAudioHardwareIllegalOperationError, none)
  else
    (kAudioHardwareUnknownPropertyError, some 0)

/-- The byte count a property call reported through *outDataSize (0 when the
pointer was NULL and nothing was written). -/
def reportedSize (result : Nat × Option Nat) : Nat :=
  result.2.getD 0

-- MARK: IO operations (PlugInInterface.c lines 328-365)

/-- PlugIn_BeginIOOperation: stub, always returns kAudioHardwareNoError. -/
def PlugIn_BeginIOOperation (inDeviceObjectID inClientID inOperationID
    inIOBufferFrameSize : Nat) : Nat :=
  kAudioHardwareNoError

/-- PlugIn_DoIOOperation: stub, leaves ioMainBuffer untouched and always
returns kAudioHardwareNoError.  Samples are modelled as exact rationals. -/
def PlugIn_DoIOOperation (inDeviceObjectID inStreamObjectID inClientID
    inOperationID inIOBufferFrameSize : Nat) (ioMainBuffer : List Rat) :
    Nat × List Rat :=
  (kAudioHardwareNoError, ioMainBuffer)

/-- PlugIn_EndIOOperation: stub, always returns kAudioHardwareNoError. -/
def PlugIn_EndIOOperation (inDeviceObjectID inClientID inOperationID
    inIOBufferFrameSize : Nat) : Nat :=
  kAudioHardwareNoError

-- MARK: Factory function (PlugInInterface.c lines 408-427)

/-- AppFadersDriver_Create: takes the requested type UUID bytes and the
current sDriverRefCount; returns the pointer result (none models returning
NULL) and the new sDriverRefCount.  On a matching UUID the C code stores 1
into sDriverRefCount and returns &gDriverInterfacePtr. -/
def AppFadersDriver_Create (requestedTypeUUID : List Nat) (refCount : Nat) :
    Option IfacePtr × Nat :=
  if requestedTypeUUID = kAudioServerPlugInTypeUUID then
    (some IfacePtr.driverInterfacePtr, 1)
  else
    (none, refCount)

-- MARK: Virtual-device core, modelled from the design spec
-- The bridge stubs above delegate to Swift core code (TODO(task6..task9))
-- that is absent from the repository snapshot; the definitions below follow
-- the spec's component contracts.

/-- A registered client: host-assigned client identifier plus process id. -/
structure ClientInfo where
  clientId : Nat
  processId : Nat
  deriving DecidableEq, Repr

/-- Control-path error results of the Client Registry. -/
inductive RegistryError where
  | DuplicateClient
  | UnknownClient
  deriving DecidableEq, Repr

/-- Whether the registry already holds an entry for the given client id. -/
def hasClient (r : List ClientInfo) (cid : Nat) : Bool :=
  r.any (fun c => c.clientId == cid)

/-- How many registry entries carry the given client id. -/
def countClient (r : List ClientInfo) (cid : Nat) : Nat :=
  (r.filter (fun c => c.clientId == cid)).length

/-- Modelled from the spec: the Client Registry's add operation, implemented
on the Swift side of TODO(task6) and absent from the snapshot.  Fails with
DuplicateClient when the id is already present, otherwise inserts. -/
def Registry.add (r : List ClientInfo) (cid pid : Nat) :
    Except RegistryError (List ClientInfo) :=
  if hasClient r cid then .error .DuplicateClient
  else .ok (⟨cid, pid⟩ :: r)

/-- A client's fader state: the control-path target gain and the smoothed
current gain the render path applies. -/
structure GainEntry where
  target : Rat
  current : Rat
  deriving DecidableEq, Repr

/-- Modelled from the spec: the Gain Table's render-path read, absent from
the snapshot.  Returns the smoothed current gain, and unity (1.0) for a
client id with no entry. -/
def current_gain (t : List (Nat × GainEntry)) (cid : Nat) : Rat :=
  match t.find? (fun p => p.1 == cid) with
  | some p => p.2.current
  | none => 1

/-- Modelled from the spec: the Gain Table's target lookup used by the ramp;
unity for a client with no entry. -/
def target_gain (t : List (Nat × GainEntry)) (cid : Nat) : Rat :=
  match t.find? (fun p => p.1 == cid) with
  | some p => p.2.target
  | none => 1

/-- Modelled from the spec: the Gain Table's control-path write, absent from
the snapshot.  Stores the new target; an entry created for a previously
unknown client starts its smoothed current value at unity, the value
current_gain reported for it before. -/
def set_gain (t : List (Nat × GainEntry)) (cid : Nat) (g : Rat) :
    List (Nat × GainEntry) :=
  if t.any (fun p => p.1 == cid) then
    t.map (fun p => if p.1 == cid then (p.1, ⟨g, p.2.current⟩) else p)
  else
    (cid, ⟨g, 1⟩) :: t

/-- Modelled from the spec: one fixed-increment smoothing step of the gain
ramp, moving the current value toward the target and never overshooting. -/
def stepToward (current target step : Rat) : Rat :=
  if current < target then min (current + step) target
  else if target < current then max (current - step) target
  else current

/-- Modelled from the spec: the per-frame loop of do_cycle.  For each frame
the smoothing ramp advances one fixed increment and the sample is multiplied
by the client's smoothed gain; returns the output frames and the gain value
after the last frame. -/
def rampFrames (step target gain : Rat) (samples : List Rat) :
    List Rat × Rat :=
  match samples with
  | [] => ([], gain)
  | s :: rest =>
      let g := stepToward gain target step
      let res := rampFrames step target g rest
      (s * g :: res.1, res.2)

/-- Write back a client's smoothed current gain after a cycle. -/
def setCurrent (t : List (Nat × GainEntry)) (cid : Nat) (g : Rat) :
    List (Nat × GainEntry) :=
  t.map (fun p => if p.1 == cid then (p.1, ⟨p.2.target, g⟩) else p)

/-- Modelled from the spec: the IO Cycle Engine's do_cycle for one client's
stream, absent from the snapshot (TODO(task9)).  Applies the ramped
per-client gain to the host buffer and persists the advanced ramp. -/
def doCycle (step : Rat) (t : List (Nat × GainEntry)) (cid : Nat)
    (samples : List Rat) : List Rat × List (Nat × GainEntry) :=
  let res := rampFrames step (target_gain t cid) (current_gain t cid) samples
  (res.1, setCurrent t cid res.2)

-- MARK: Property Store, modelled from the design spec

/-- Control-path error results of the Property Store. -/
inductive PropError where
  | UnknownProperty
  | NotSettable
  | IllegalValue
  | BufferTooSmall
  deriving DecidableEq, Repr

/-- The object id of the single virtual device. -/
def kDeviceObjectID : Nat := 2

/-- FourCC of the nominal sample-rate selector from the CoreAudio headers. -/
def kAudioDevicePropertyNominalSampleRate : Nat := 0x6E737274

/-- FourCC of the global property scope from the CoreAudio headers. -/
def kAudioObjectPropertyScopeGlobal : Nat := 0x676C6F62

/-- The (selector, scope, element) address of the device sample rate. -/
def sampleRateAddress : PropertyAddress :=
  ⟨kAudioDevicePropertyNominalSampleRate, kAudioObjectPropertyScopeGlobal, 0⟩

/-- Device descriptive state; the sample rate is held as the 64-bit IEEE-754
bit pattern of the Float64 the host protocol exchanges. -/
structure DeviceState where
  sampleRateBits : Nat
  deriving DecidableEq, Repr

/-- The 8-byte little-endian serialization of a 64-bit value. -/
def float64Bytes (bits : Nat) : List Nat :=
  (List.range 8).map (fun i => bits / 2 ^ (8 * i) % 256)

/-- Modelled from the spec: the Property Store's get_size, implemented by the
Swift VirtualDevice of TODO(task7) and absent from the snapshot.  The sample
rate selector on the device reports the byte size of a Float64. -/
def PropertyStore.get_size (objectId : Nat) (addr : PropertyAddress) :
    Except PropError Nat :=
  if objectId = kDeviceObjectID ∧
      addr.selector = kAudioDevicePropertyNominalSampleRate then
    .ok 8
  else
    .error .UnknownProperty

/-- Modelled from the spec: the Property Store's get_data, absent from the
snapshot.  Serializes the device sample rate into 8 bytes; a caller that
sized its buffer below the get_size answer gets BufferTooSmall. -/
def PropertyStore.get_data (st : DeviceState) (objectId : Nat)
    (addr : PropertyAddress) (bufferCapacity : Nat) :
    Except PropError (List Nat) :=
  if objectId = kDeviceObjectID ∧
      addr.selector = kAudioDevicePropertyNominalSampleRate then
    if bufferCapacity < 8 then .error .BufferTooSmall
    else .ok (float64Bytes st.sampleRateBits)
  else
    .error .UnknownProperty

-- MARK: Claim theorems

/-- C1: for every (objectId, address, qualifier) — and any inDataSize — the
byte count PlugIn_GetPropertyData reports through *outDataSize never exceeds
the size PlugIn_GetPropertyDataSize reports for the same triple (both stub
handlers report 0). -/
theorem getData_reports_at_most_getSize (objectId : Nat)
    (addr : PropertyAddress) (qualifier : List Nat) (inDataSize : Nat) :
    reportedSize
        (PlugIn_GetPropertyData objectId addr qualifier inDataSize false false)
      ≤ reportedSize (PlugIn_GetPropertyDataSize objectId addr qualifier false) := by
  simp [PlugIn_GetPropertyData, PlugIn_GetPropertyDataSize, reportedSize]

/-- C5: for every request, PlugIn_CreateDevice and PlugIn_DestroyDevice
return kAudioHardwareUnsupportedOperationError; CreateDevice also never
produces a device object id, so the device population never changes. -/
theorem createDestroyDevice_unsupported (desc cinfo devID : Nat) :
    PlugIn_CreateDevice desc cinfo
        = (kAudioHardwareUnsupportedOperationError, none) ∧
    PlugIn_DestroyDevice devID = kAudioHardwareUnsupportedOperationError :=
  ⟨rfl, rfl⟩

/-- C7: for every input, PlugIn_BeginIOOperation, PlugIn_DoIOOperation and
PlugIn_EndIOOperation return kAudioHardwareNoError, and DoIOOperation leaves
the host buffer passing through unmodified — no error status ever escapes on
the render path. -/
theorem ioOperations_never_fail (devID streamID clientID opID frameSize : Nat)
    (buf : List Rat) :
    PlugIn_BeginIOOperation devID clientID opID frameSize
        = kAudioHardwareNoError ∧
    PlugIn_DoIOOperation devID streamID clientID opID frameSize buf
        = (kAudioHardwareNoError, buf) ∧
    PlugIn_EndIOOperation devID clientID opID frameSize
        = kAudioHardwareNoError :=
  ⟨rfl, rfl, rfl⟩

/-- C8: PlugIn_QueryInterface returns E_POINTER for a NULL outInterface; for
the driver-interface or IUnknown UUID it increments the reference count by
one (stated below the UInt32 wrap bound), stores the driver interface
pointer, and returns S_OK; for any other UUID it stores NULL, returns
E_NOINTERFACE, and leaves the count unchanged. -/
theorem queryInterface_contract (c : Nat) (uuid : List Nat) :
    PlugIn_QueryInterface c true uuid
        = (E_POINTER, c, StoredIface.notStored) ∧
    (c + 1 < 2 ^ 32 → (uuid = driverInterfaceUUID ∨ uuid = iunknownUUID) →
      PlugIn_QueryInterface c false uuid
        = (S_OK, c + 1, StoredIface.storedDriver)) ∧
    (uuid ≠ driverInterfaceUUID → uuid ≠ iunknownUUID →
      PlugIn_QueryInterface c false uuid
        = (E_NOINTERFACE, c, StoredIface.storedNull)) := by
  refine ⟨rfl, ?_, ?_⟩
  · intro hlt h
    unfold PlugIn_QueryInterface
    simp only [Bool.false_eq_true, if_false]
    rw [if_pos h, Nat.mod_eq_of_lt hlt]
  · intro h1 h2
    unfold PlugIn_QueryInterface
    simp only [Bool.false_eq_true, if_false]
    rw [if_neg (by simp [h1, h2])]

/-- C8 witness: the contract evaluated at refCount 1 for each of the four
concrete request shapes. -/
theorem queryInterface_contract_witness :
    PlugIn_QueryInterface 1 true [] = (E_POINTER, 1, StoredIface.notStored) ∧
    PlugIn_QueryInterface 1 false driverInterfaceUUID
        = (S_OK, 2, StoredIface.storedDriver) ∧
    PlugIn_QueryInterface 1 false iunknownUUID
        = (S_OK, 2, StoredIface.storedDriver) ∧
    PlugIn_QueryInterface 1 false [0]
        = (E_NOINTERFACE, 1, StoredIface.storedNull) :=
  ⟨(queryInterface_contract 1 []).1,
   (queryInterface_contract 1 driverInterfaceUUID).2.1 (by norm_num) (Or.inl rfl),
   (queryInterface_contract 1 iunknownUUID).2.1 (by norm_num) (Or.inr rfl),
   (queryInterface_contract 1 [0]).2.2 (by decide) (by decide)⟩

/-- C9: PlugIn_Release decrements a positive reference count by one and
returns the new count; at count zero it returns zero and leaves the count at
zero — it never wraps around below zero. -/
theorem release_never_underflows (c : Nat) :
    (0 < c → PlugIn_Release c = (c - 1, c - 1)) ∧
    (c = 0 → PlugIn_Release c = (0, 0)) := by
  constructor
  · intro h
    simp [PlugIn_Release, h]
  · intro h
    subst h
    simp [PlugIn_Release]

/-- C9 witness: release from count 3 and from count 0. -/
theorem release_never_underflows_witness :
    PlugIn_Release 3 = (2, 2) ∧ PlugIn_Release 0 = (0, 0) :=
  ⟨(release_never_underflows 3).1 (by norm_num),
   (release_never_underflows 0).2 rfl⟩

/-- C10: AppFadersDriver_Create returns NULL (and leaves the reference count
alone) whenever the requested type UUID differs from
kAudioServerPlugInTypeUUID, and otherwise stores exactly 1 into the
reference count and returns the non-NULL driver interface pointer. -/
theorem driverCreate_contract (uuid : List Nat) (c : Nat) :
    (uuid ≠ kAudioServerPlugInTypeUUID →
      AppFadersDriver_Create uuid c = (none, c)) ∧
    (uuid = kAudioServerPlugInTypeUUID →
      AppFadersDriver_Create uuid c = (some IfacePtr.driverInterfacePtr, 1)) := by
  constructor <;> intro h <;> simp [AppFadersDriver_Create, h]

/-- C10 witness: creation with a wrong UUID and with the plug-in type UUID. -/
theorem driverCreate_contract_witness :
    AppFadersDriver_Create [] 7 = (none, 7) ∧
    AppFadersDriver_Create kAudioServerPlugInTypeUUID 7
        = (some IfacePtr.driverInterfacePtr, 1) :=
  ⟨(driverCreate_contract [] 7).1 (by decide),
   (driverCreate_contract kAudioServerPlugInTypeUUID 7).2 rfl⟩

/-- C3: when the Gain Table's keys are a subset of the Client Registry (the
spec's subset invariant) and a client id is not registered, current_gain
returns exactly unity instead of failing. -/
theorem unknown_client_gain_is_unity (r : List ClientInfo)
    (t : List (Nat × GainEntry)) (cid : Nat)
    (hsub : ∀ p ∈ t, hasClient r p.1 = true)
    (hnot : hasClient r cid = false) :
    current_gain t cid = 1 := by
  unfold current_gain
  cases hfind : t.find? (fun p => p.1 == cid) with
  | none => rfl
  | some p =>
      exfalso
      have hmem : p ∈ t := List.mem_of_find?_eq_some hfind
      have hp := List.find?_some hfind
      have hcid : p.1 = cid := by simpa using hp
      have htrue : hasClient r cid = true := hcid ▸ hsub p hmem
      simp [htrue] at hnot

/-- C3 witness: the empty registry and empty gain table at client id 7. -/
theorem unknown_client_gain_is_unity_witness :
    (∀ p ∈ ([] : List (Nat × GainEntry)), hasClient [] p.1 = true) ∧
    hasClient [] 7 = false ∧
    current_gain [] 7 = 1 :=
  ⟨by simp, rfl, unknown_client_gain_is_unity [] [] 7 (by simp) rfl⟩

/-- C4: adding a fresh client id succeeds and inserts it; adding the same id
again fails with DuplicateClient, and the registry still holds exactly one
entry for that id. -/
theorem add_rejects_duplicate (r : List ClientInfo) (cid pid pid2 : Nat)
    (hfresh : hasClient r cid = false) :
    Registry.add r cid pid = .ok (⟨cid, pid⟩ :: r) ∧
    Registry.add (⟨cid, pid⟩ :: r) cid pid2 = .error .DuplicateClient ∧
    countClient (⟨cid, pid⟩ :: r) cid = 1 := by
  have hnil : r.filter (fun c => c.clientId == cid) = [] := by
    simp only [hasClient, List.any_eq_false] at hfresh
    exact List.filter_eq_nil_iff.mpr hfresh
  refine ⟨?_, ?_, ?_⟩
  · simp [Registry.add, hfresh]
  · simp [Registry.add, hasClient]
  · simp [countClient, List.filter_cons, hnil]

/-- C4 witness: the double-add scenario of the spec at id 5 on the empty
registry. -/
theorem add_rejects_duplicate_witness :
    hasClient [] 5 = false ∧
    Registry.add [] 5 100 = .ok [⟨5, 100⟩] ∧
    Registry.add [⟨5, 100⟩] 5 200 = .error .DuplicateClient ∧
    countClient [⟨5, 100⟩] 5 = 1 :=
  ⟨rfl,
   (add_rejects_duplicate [] 5 100 200 rfl).1,
   (add_rejects_duplicate [] 5 100 200 rfl).2.1,
   (add_rejects_duplicate [] 5 100 200 rfl).2.2⟩

/-- C6: a get_size query for the sample-rate selector on the Device object
answers 8, the byte size of a 64-bit float, and get_data for the same
selector (with an adequate buffer) answers exactly the 8-byte serialization
of the current rate. -/
theorem sampleRate_size_and_data (st : DeviceState) (cap : Nat)
    (hcap : 8 ≤ cap) :
    PropertyStore.get_size kDeviceObjectID sampleRateAddress = .ok 8 ∧
    PropertyStore.get_data st kDeviceObjectID sampleRateAddress cap
        = .ok (float64Bytes st.sampleRateBits) ∧
    (float64Bytes st.sampleRateBits).length = 8 := by
  refine ⟨rfl, ?_, by simp [float64Bytes]⟩
  unfold PropertyStore.get_data
  rw [if_pos ⟨rfl, rfl⟩, if_neg (by omega)]

/-- C6 witness: the device holding the IEEE-754 bit pattern of 44100.0 with
an exactly sized 8-byte buffer. -/
theorem sampleRate_size_and_data_witness :
    8 ≤ 8 ∧
    PropertyStore.get_data ⟨0x40E5888000000000⟩ kDeviceObjectID
        sampleRateAddress 8
      = .ok (float64Bytes 0x40E5888000000000) :=
  ⟨le_refl 8,
   (sampleRate_size_and_data ⟨0x40E5888000000000⟩ 8 (le_refl 8)).2.1⟩

/-- C2: after add(clientId 1, processId 100) and set_gain(1, 1/2), one
do_cycle over the 2-frame buffer [1, 1] outputs frames whose effective gain
is strictly between 1 and 1/2 — a ramp, not an instantaneous 1/2.  `step` is
the spec's tunable smoothing increment; any positive increment that does not
finish the ramp within the two frames exhibits the strict in-between. -/
theorem doCycle_ramps_not_instantaneous (step : Rat)
    (hpos : 0 < step) (hsmall : step < 1 / 4) :
    Registry.add [] 1 100 = .ok [⟨1, 100⟩] ∧
    (doCycle step (set_gain [] 1 (1 / 2)) 1 [1, 1]).1
        = [1 - step, 1 - 2 * step] ∧
    ∀ o ∈ (doCycle step (set_gain [] 1 (1 / 2)) 1 [1, 1]).1,
      1 / 2 < o ∧ o < 1 := by
  have h1 : stepToward 1 (1 / 2) step = 1 - step := by
    unfold stepToward
    rw [if_neg (by norm_num), if_pos (by norm_num)]
    exact max_eq_left (by linarith)
  have h2 : stepToward (1 - step) (1 / 2) step = 1 - 2 * step := by
    unfold stepToward
    rw [if_neg (by linarith), if_pos (by linarith)]
    rw [max_eq_left (by linarith)]
    ring
  have htg : target_gain (set_gain [] 1 (1 / 2)) 1 = 1 / 2 := rfl
  have hcg : current_gain (set_gain [] 1 (1 / 2)) 1 = 1 := rfl
  have hout : (doCycle step (set_gain [] 1 (1 / 2)) 1 [1, 1]).1
      = [1 - step, 1 - 2 * step] := by
    simp only [doCycle, rampFrames, htg, hcg, h1, h2, one_mul]
  refine ⟨rfl, hout, ?_⟩
  rw [hout]
  intro o ho
  rcases List.mem_cons.mp ho with rfl | ho
  · constructor <;> linarith
  rcases List.mem_cons.mp ho with rfl | ho
  · constructor <;> linarith
  · exact absurd ho (List.not_mem_nil o)

/-- C2 witness: smoothing increment 1/8, which yields output frames 7/8 and
3/4, both strictly between 1/2 and 1. -/
theorem doCycle_ramps_not_instantaneous_witness :
    (0 : Rat) < 1 / 8 ∧ (1 / 8 : Rat) < 1 / 4 ∧
    (doCycle (1 / 8) (set_gain [] 1 (1 / 2)) 1 [1, 1]).1
        = [1 - 1 / 8, 1 - 2 * (1 / 8)] :=
  ⟨by norm_num, by norm_num,
   (doCycle_ramps_not_instantaneous (1 / 8) (by norm_num) (by norm_num)).2.1⟩
